import Mathlib

/-!
Shallow embedding of `src/Pyrlang/gen.py` (module `Pyrlang.gen`): gen:call
message parsing (`parse_gen_call`, `parse_gen_message`), the descriptor
classes (`GenBase`, `GenIncomingMessage`, `GenIncomingCall`) and the reply
operations (`reply`, `reply_exit`).

Python values flowing through this module are modelled by the inductive
type `Py`.  The value types coming from `Pyrlang.Term` (which is not part
of the sources at hand) are modelled from the spec: a symbolic literal
(`Term.Atom`, carrying its `text_`), a compound term exposing an
element-list accessor (`Term.List`, carrying its `elements_`), process
identifiers carrying a node affiliation (`Term.Pid`, whose `node_.text_`
is the node name) and references (`Term.Reference`).

Exceptions raised by Python itself (failed indexing, failed iterable
unpacking, `len()` of an unsized object, attribute lookup failure, a call
missing a required argument, registry lookup miss) are made explicit with
the `PyErr` type, and every operation that can either raise, return an
error string or return a descriptor produces a `PyResult`.
-/

namespace PyrlangGen

/-- A Python value as seen by `Pyrlang.gen`: native tuples, lists, strings
and integers, plus the wire-value types from `Pyrlang.Term` (modelled from
the spec, see the module docstring). -/
inductive Py where
  | atom (text : String)
  | tuple (elems : List Py)
  | list (elems : List Py)
  | termList (elems : List Py)
  | pid (node : String) (id : Nat)
  | ref (id : Nat)
  | pstr (s : String)
  | pint (n : Int)

/-- The Python exceptions that the embedded code paths can raise. -/
inductive PyErr where
  | indexError
  | valueError
  | typeError
  | attributeError
  | keyError
  deriving DecidableEq

/-- Outcome of one of the embedded operations: a raised exception, a
returned rejection string, or a returned value/descriptor. -/
inductive PyResult (α : Type) where
  | raised (e : PyErr)
  | errStr (s : String)
  | ok (a : α)

/-- Whether a `PyResult` is a successfully returned value. -/
def PyResult.isOk {α : Type} : PyResult α → Bool
  | .ok _ => true
  | _ => false

/-- `isinstance(x, Term.Atom)`. -/
def Py.isAtom : Py → Bool
  | .atom _ => true
  | _ => false

/-- `isinstance(x, Term.Atom) and x.text_ == given` for the reserved tag:
the test performed on `msg[0]` by both parsers. -/
def isGenCallTag : Py → Bool
  | .atom t => t == "$gen_call"
  | _ => false

/-- Python 2-unpacking `(a, b) = x`: succeeds on tuples, lists or strings
of length exactly 2, raises `ValueError` on other lengths of those, and
raises `TypeError` on non-iterables (the `Term` wire types are modelled as
non-iterable, the spec giving them only an element-list accessor). -/
def unpack2 : Py → Except PyErr (Py × Py)
  | .tuple [a, b] => .ok (a, b)
  | .tuple _ => .error .valueError
  | .list [a, b] => .ok (a, b)
  | .list _ => .error .valueError
  | .pstr s =>
    match s.toList with
    | [a, b] => .ok (.pstr (String.mk [a]), .pstr (String.mk [b]))
    | _ => .error .valueError
  | _ => .error .typeError

/-- Python 5-unpacking `(a, b, c, d, e) = x`, same conventions as
`unpack2`. -/
def unpack5 : Py → Except PyErr (Py × Py × Py × Py × Py)
  | .tuple [a, b, c, d, e] => .ok (a, b, c, d, e)
  | .tuple _ => .error .valueError
  | .list [a, b, c, d, e] => .ok (a, b, c, d, e)
  | .list _ => .error .valueError
  | .pstr s =>
    match s.toList with
    | [a, b, c, d, e] =>
      .ok (.pstr (String.mk [a]), .pstr (String.mk [b]), .pstr (String.mk [c]),
           .pstr (String.mk [d]), .pstr (String.mk [e]))
    | _ => .error .valueError
  | _ => .error .typeError

/-- Python `len(x)`: defined for tuples, lists and strings; raises
`TypeError` elsewhere (the modelled `Term` types declare no length). -/
def pyLen : Py → Except PyErr Nat
  | .tuple ts => .ok ts.length
  | .list ts => .ok ts.length
  | .pstr s => .ok s.length
  | _ => .error .typeError

mutual

/-- Python `repr(x)`; for the `Term` types (absent from the sources) a
textual rendering modelled from the spec, which only requires that a
symbolic literal has a textual rendering accessor. -/
def pyRepr : Py → String
  | .atom t => t
  | .pstr s => "\x27" ++ s ++ "\x27"
  | .pint n => toString n
  | .pid node i => "<Pid " ++ node ++ "." ++ toString i ++ ">"
  | .ref i => "<Ref " ++ toString i ++ ">"
  | .tuple [x] => "(" ++ pyRepr x ++ ",)"
  | .tuple xs => "(" ++ pyReprList xs ++ ")"
  | .list xs => "[" ++ pyReprList xs ++ "]"
  | .termList xs => "[" ++ pyReprList xs ++ "]"

/-- Comma-separated renderings of a list of values. -/
def pyReprList : List Py → String
  | [] => ""
  | [x] => pyRepr x
  | x :: xs => pyRepr x ++ ", " ++ pyReprList xs

end

/-- Python `str(x)`, as used by the `%s` formatting in the two type-check
error messages: identical to `repr` except on strings. -/
def pyStr : Py → String
  | .pstr s => s
  | x => pyRepr x

/-- `GenBase`: base descriptor holding the reply addressing context. -/
structure GenBase where
  sender_ : Py
  ref_ : Py
  node_name_ : String

/-- `GenIncomingMessage`: a generic incoming gen message; `message_` is the
last part of the incoming message, the payload. -/
structure GenIncomingMessage extends GenBase where
  message_ : Py

/-- `GenIncomingCall`: the elements of an incoming gen:call RPC message. -/
structure GenIncomingCall extends GenBase where
  mod_ : Py
  fun_ : Py
  args_ : Py
  group_leader_ : Py

/-- `GenIncomingCall.get_args`: `self.args_` if it is a Python list,
otherwise `self.args_.elements_`; only the modelled `Term.List` carries an
`elements_` attribute, any other non-list raises `AttributeError`. -/
def GenIncomingCall.get_args (self : GenIncomingCall) : Except PyErr (List Py) :=
  match self.args_ with
  | .list ts => .ok ts
  | .termList ts => .ok ts
  | _ => .error .attributeError

/-- Modelled from the spec: the node registry of the routing layer
(`Node.all_nodes` from `Pyrlang.node`, which is not part of the sources at
hand).  It is abstracted to the set of registered node names; an indexing
with an unregistered name raises `KeyError`.  The only node-handle
operations used by this module, `send` and `dist_command`, are recorded as
emitted `Action`s rather than performed. -/
def Registry : Type := String → Bool

/-- An outbound request handed to the routing layer: either a normal
message delivery (`Node.send`) or a node-level distribution directive
(`Node.dist_command`). -/
inductive Action where
  | send (sender receiver message : Py)
  | distCommand (receiverNode : String) (message : Py)

/-- `x.node_.text_`: the node affiliation of a pid; any non-pid value
raises `AttributeError` (only the modelled `Term.Pid` carries `node_`). -/
def Py.nodeText : Py → Except PyErr String
  | .pid node _ => .ok node
  | _ => .error .attributeError

/-- `GenBase.reply(local_pid, result)`: looks the node up by
`self.node_name_` and asks it to send `(self.ref_, result)` from
`local_pid` to `self.sender_`. -/
def GenBase.reply (registry : Registry) (self : GenBase) (local_pid result : Py) :
    PyResult (List Action) :=
  if registry self.node_name_ then
    .ok [.send local_pid self.sender_ (.tuple [self.ref_, result])]
  else
    .raised .keyError

/-- `GenBase.reply_exit(local_pid, reason)`: builds the
`("monitor_p_exit", local_pid, self.sender_, self.ref_, reason)` tuple
(its first element is a Python string literal), looks the node up by
`self.node_name_`, and issues the tuple as a `dist_command` directive to
the node named by `self.sender_.node_.text_`. -/
def GenBase.reply_exit (registry : Registry) (self : GenBase) (local_pid reason : Py) :
    PyResult (List Action) :=
  let reply := Py.tuple [.pstr "monitor_p_exit", local_pid, self.sender_, self.ref_, reason]
  if registry self.node_name_ then
    match self.sender_.nodeText with
    | .error e => .raised e
    | .ok receiverNode => .ok [.distCommand receiverNode reply]
  else
    .raised .keyError

/-- `parse_gen_call(msg)`: determine whether `msg` is a gen:call message.
Follows the source line by line: non-tuples and wrong-tag tuples return
rejection strings; `msg[0]` on an empty tuple raises `IndexError`; the
3-unpacking of `msg` and the 2-unpacking of the sender/ref pair raise on
shape mismatch; `len` of an unsized body raises `TypeError`; after the
arity and atom checks pass, the source invokes `GenIncomingCall(...)`
without the required `node_name` argument, so the construction itself
raises `TypeError` instead of returning the descriptor. -/
def parse_gen_call (msg : Py) : PyResult GenIncomingCall :=
  match msg with
  | .tuple elems =>
    match elems with
    | [] => .raised .indexError
    | e0 :: _ =>
      if isGenCallTag e0 then
        match elems with
        | [_, sender_mref, call_mfa_gl] =>
          match unpack2 sender_mref with
          | .error e => .raised e
          | .ok (_msender, _mref) =>
            match pyLen call_mfa_gl with
            | .error e => .raised e
            | .ok n =>
              if n = 5 then
                match unpack5 call_mfa_gl with
                | .error e => .raised e
                | .ok (_call, m, f, _args, _group_leader) =>
                  if m.isAtom then
                    if f.isAtom then
                      .raised .typeError
                    else
                      .errStr ("Function must be an atom: " ++ pyStr f)
                  else
                    .errStr ("Module must be an atom: " ++ pyStr m)
              else
                .errStr "Expecting a 5-tuple (with a \x27call\x27 atom)"
        | _ => .raised .valueError
      else
        .errStr "Only \x7b$gen_call, _, _\x7d messages allowed"
  | _ => .errStr "Only \x7btuple\x7d messages allowed"

/-- `parse_gen_message(msg, node_name)`: same outer-shape handling as
`parse_gen_call`, then wraps the third element verbatim in a
`GenIncomingMessage`. -/
def parse_gen_message (msg : Py) (node_name : String) : PyResult GenIncomingMessage :=
  match msg with
  | .tuple elems =>
    match elems with
    | [] => .raised .indexError
    | e0 :: _ =>
      if isGenCallTag e0 then
        match elems with
        | [_, sender_mref, gcmsg] =>
          match unpack2 sender_mref with
          | .error e => .raised e
          | .ok (msender, mref) =>
            .ok { sender_ := msender, ref_ := mref, node_name_ := node_name,
                  message_ := gcmsg }
        | _ => .raised .valueError
      else
        .errStr "Only \x7b$gen_call, _, _\x7d messages allowed"
  | _ => .errStr "Only \x7btuple\x7d messages allowed"

/-- Helper: `parse_gen_call` never returns a descriptor — every branch of
the source either returns a rejection string or raises (the would-be
success branch raises `TypeError` because the `GenIncomingCall`
construction lacks the required `node_name` argument). -/
theorem parse_gen_call_never_ok (msg : Py) : (parse_gen_call msg).isOk = false := by
  unfold parse_gen_call
  repeat' split
  all_goals rfl

/-- Helper: definitional reduction of `parse_gen_call` on a 3-element
tuple envelope. -/
theorem parse_gen_call_three (tag sr body : Py) :
    parse_gen_call (.tuple [tag, sr, body])
      = (if isGenCallTag tag then
          match unpack2 sr with
          | .error e => .raised e
          | .ok (_msender, _mref) =>
            match pyLen body with
            | .error e => .raised e
            | .ok n =>
              if n = 5 then
                match unpack5 body with
                | .error e => .raised e
                | .ok (_call, m, f, _args, _group_leader) =>
                  if m.isAtom then
                    if f.isAtom then
                      .raised .typeError
                    else
                      .errStr ("Function must be an atom: " ++ pyStr f)
                  else
                    .errStr ("Module must be an atom: " ++ pyStr m)
              else
                .errStr "Expecting a 5-tuple (with a \x27call\x27 atom)"
        else
          .errStr "Only \x7b$gen_call, _, _\x7d messages allowed") := rfl

/-- Helper: definitional reduction of `parse_gen_message` on a 3-element
tuple envelope. -/
theorem parse_gen_message_three (tag sr body : Py) (node : String) :
    parse_gen_message (.tuple [tag, sr, body]) node
      = (if isGenCallTag tag then
          match unpack2 sr with
          | .error e => .raised e
          | .ok (msender, mref) =>
            .ok { sender_ := msender, ref_ := mref, node_name_ := node,
                  message_ := body }
        else
          .errStr "Only \x7b$gen_call, _, _\x7d messages allowed") := rfl

/-- Helper for claim C8, tuple-shaped body: the first element of the call
body (the call marker) never influences the result of `parse_gen_call`. -/
theorem parse_call_marker_irrel_tuple (tag sr c1 c2 : Py) (rest : List Py) :
    parse_gen_call (.tuple [tag, sr, .tuple (c1 :: rest)])
      = parse_gen_call (.tuple [tag, sr, .tuple (c2 :: rest)]) := by
  rw [parse_gen_call_three, parse_gen_call_three]
  cases htag : isGenCallTag tag
  · simp
  · simp only [if_true]
    cases hu : unpack2 sr with
    | error e => simp [hu]
    | ok p =>
      obtain ⟨ms, mr⟩ := p
      rcases rest with _ | ⟨a, _ | ⟨b, _ | ⟨c, _ | ⟨d, _ | ⟨e, rest⟩⟩⟩⟩⟩
      · simp only [hu]; rfl
      · simp only [hu]; rfl
      · simp only [hu]; rfl
      · simp only [hu]; rfl
      · simp only [hu]; rfl
      · simp only [hu, pyLen, List.length_cons]
        rw [if_neg (by omega), if_neg (by omega)]

/-- Helper for claim C8, list-shaped body: same statement with the body a
Python list. -/
theorem parse_call_marker_irrel_list (tag sr c1 c2 : Py) (rest : List Py) :
    parse_gen_call (.tuple [tag, sr, .list (c1 :: rest)])
      = parse_gen_call (.tuple [tag, sr, .list (c2 :: rest)]) := by
  rw [parse_gen_call_three, parse_gen_call_three]
  cases htag : isGenCallTag tag
  · simp
  · simp only [if_true]
    cases hu : unpack2 sr with
    | error e => simp [hu]
    | ok p =>
      obtain ⟨ms, mr⟩ := p
      rcases rest with _ | ⟨a, _ | ⟨b, _ | ⟨c, _ | ⟨d, _ | ⟨e, rest⟩⟩⟩⟩⟩
      · simp only [hu]; rfl
      · simp only [hu]; rfl
      · simp only [hu]; rfl
      · simp only [hu]; rfl
      · simp only [hu]; rfl
      · simp only [hu, pyLen, List.length_cons]
        rw [if_neg (by omega), if_neg (by omega)]

/-- Claim C1: the claim says a well-formed call envelope
`($gen_call, (S, R), (c, Mod, Fun, Args, GL))` with atom `Mod` and `Fun`
makes `parse_gen_call` succeed with a `GenIncomingCall`.  The code instead
raises `TypeError` on every such envelope, because the `GenIncomingCall`
construction omits the required `node_name` argument; this theorem
evaluates the decoder at one such well-formed envelope. -/
theorem claim1_wellformed_call_raises :
    parse_gen_call (.tuple [.atom "$gen_call",
        .tuple [.pid "caller@host" 1, .ref 7],
        .tuple [.atom "call", .atom "erlang", .atom "node", .list [], .pid "caller@host" 3]])
      = .raised .typeError := rfl

/-- Claim C2: the claim says neither decoder ever raises, and that
envelopes of length 0, 2 or 4 and envelopes with a non-pair sender/ref
component yield rejection strings.  The code raises on all of these: an
empty tuple raises `IndexError` from `msg[0]`, tagged 2- and 4-tuples
raise `ValueError` from the 3-unpacking, and a non-pair sender/ref raises
`TypeError` from the 2-unpacking. -/
theorem claim2_decoders_raise_on_malformed :
    (parse_gen_call (.tuple []) = .raised .indexError ∧
     parse_gen_message (.tuple []) "nonode@nohost" = .raised .indexError) ∧
    (parse_gen_call (.tuple [.atom "$gen_call", .pint 1]) = .raised .valueError ∧
     parse_gen_message (.tuple [.atom "$gen_call", .pint 1]) "nonode@nohost"
       = .raised .valueError) ∧
    (parse_gen_call (.tuple [.atom "$gen_call", .pint 1, .pint 2, .pint 3])
       = .raised .valueError ∧
     parse_gen_message (.tuple [.atom "$gen_call", .pint 1, .pint 2, .pint 3]) "nonode@nohost"
       = .raised .valueError) ∧
    (parse_gen_call (.tuple [.atom "$gen_call", .pint 1, .pint 2]) = .raised .typeError ∧
     parse_gen_message (.tuple [.atom "$gen_call", .pint 1, .pint 2]) "nonode@nohost"
       = .raised .typeError) :=
  ⟨⟨rfl, rfl⟩, ⟨rfl, rfl⟩, ⟨rfl, rfl⟩, ⟨rfl, rfl⟩⟩

/-- Claim C3 counterexample: the claim says `parse_gen_call` returns the
arity-mismatch rejection string for every non-5-element payload; for the
unsized payload `42` the code instead raises `TypeError` from `len`. -/
theorem claim3_counterexample_unsized_payload :
    parse_gen_call (.tuple [.atom "$gen_call", .tuple [.pid "caller@host" 1, .ref 7], .pint 42])
      = .raised .typeError := rfl

/-- Claim C3 (amended): for an envelope `($gen_call, (S, R), payload)`,
`parse_gen_message` succeeds with the payload stored verbatim, and when
the payload is a sized sequence whose length is not 5, `parse_gen_call`
returns the arity-mismatch rejection string (an unsized payload instead
makes `len` raise, see the counterexample). -/
theorem claim3_amended_generic_accepts_call_rejects_arity
    (S R payload : Py) (node : String) (n : Nat)
    (hlen : pyLen payload = .ok n) (hn : n ≠ 5) :
    parse_gen_message (.tuple [.atom "$gen_call", .tuple [S, R], payload]) node
      = .ok ⟨⟨S, R, node⟩, payload⟩ ∧
    parse_gen_call (.tuple [.atom "$gen_call", .tuple [S, R], payload])
      = .errStr "Expecting a 5-tuple (with a \x27call\x27 atom)" := by
  refine ⟨rfl, ?_⟩
  rw [parse_gen_call_three]
  simp only [isGenCallTag, beq_self_eq_true, if_true, unpack2, hlen]
  rw [if_neg hn]

/-- Claim C3 witness: the amended statement at the concrete envelope
`($gen_call, (Pid, Ref), ())` whose payload is an empty tuple. -/
theorem claim3_amended_witness :
    parse_gen_message (.tuple [.atom "$gen_call",
        .tuple [.pid "caller@host" 1, .ref 7], .tuple []]) "me@host"
      = .ok ⟨⟨.pid "caller@host" 1, .ref 7, "me@host"⟩, .tuple []⟩ ∧
    parse_gen_call (.tuple [.atom "$gen_call",
        .tuple [.pid "caller@host" 1, .ref 7], .tuple []])
      = .errStr "Expecting a 5-tuple (with a \x27call\x27 atom)" :=
  claim3_amended_generic_accepts_call_rejects_arity
    (.pid "caller@host" 1) (.ref 7) (.tuple []) "me@host" 0 rfl (by decide)

/-- Claim C4: once the arity check passes, a non-atom `Module` yields the
TypeMismatch rejection string carrying the textual rendering of the
offending value; likewise for `Function`, and the `Module` check runs
first, so with both non-atoms the message names the module value (the
hypothesis of the first conjunct does not constrain `f`). -/
theorem claim4_module_function_atom_checks (S R c m f a g : Py) :
    (m.isAtom = false →
      parse_gen_call (.tuple [.atom "$gen_call", .tuple [S, R], .tuple [c, m, f, a, g]])
        = .errStr ("Module must be an atom: " ++ pyStr m)) ∧
    (m.isAtom = true → f.isAtom = false →
      parse_gen_call (.tuple [.atom "$gen_call", .tuple [S, R], .tuple [c, m, f, a, g]])
        = .errStr ("Function must be an atom: " ++ pyStr f)) := by
  constructor
  · intro hm
    rw [parse_gen_call_three]
    simp [isGenCallTag, unpack2, pyLen, unpack5, hm]
  · intro hm hf
    rw [parse_gen_call_three]
    simp [isGenCallTag, unpack2, pyLen, unpack5, hm, hf]

/-- Claim C4 witness: the two branches at concrete envelopes whose module
(resp. function) slot holds the non-atom `42` (resp. the plain string
`"f"`); when both are non-atoms the first branch applies and the message
names the module value. -/
theorem claim4_witness :
    parse_gen_call (.tuple [.atom "$gen_call", .tuple [.pid "caller@host" 1, .ref 7],
        .tuple [.atom "call", .pint 42, .pstr "f", .list [], .pint 0]])
      = .errStr ("Module must be an atom: " ++ pyStr (.pint 42)) ∧
    parse_gen_call (.tuple [.atom "$gen_call", .tuple [.pid "caller@host" 1, .ref 7],
        .tuple [.atom "call", .atom "m", .pstr "f", .list [], .pint 0]])
      = .errStr ("Function must be an atom: " ++ pyStr (.pstr "f")) :=
  ⟨(claim4_module_function_atom_checks (.pid "caller@host" 1) (.ref 7)
      (.atom "call") (.pint 42) (.pstr "f") (.list []) (.pint 0)).1 rfl,
   (claim4_module_function_atom_checks (.pid "caller@host" 1) (.ref 7)
      (.atom "call") (.atom "m") (.pstr "f") (.list []) (.pint 0)).2 rfl rfl⟩

/-- Claim C5: `reply_exit` issues exactly one node-level directive (a
`dist_command`, not a `send`), whose payload is the 5-element tuple
`("monitor_p_exit", local_pid, ctx.sender_, ctx.ref_, reason)` with the
correlation token `ctx.ref_` unchanged, addressed to the node name taken
from the own node affiliation of `ctx.sender_` rather than from
`ctx.node_name_`. -/
theorem claim5_reply_exit_directive (registry : Registry) (ctx : GenBase)
    (local_pid reason : Py) (node : String) (i : Nat)
    (hreg : registry ctx.node_name_ = true)
    (hsender : ctx.sender_ = .pid node i) :
    ctx.reply_exit registry local_pid reason
      = .ok [.distCommand node
          (.tuple [.pstr "monitor_p_exit", local_pid, ctx.sender_, ctx.ref_, reason])] := by
  simp [GenBase.reply_exit, hreg, hsender, Py.nodeText]

/-- Claim C5 witness: the directive at a concrete context whose sender is
a pid on node `caller@host` while the own node name of the context is
`me@host`. -/
theorem claim5_witness :
    GenBase.reply_exit (fun _ => true) ⟨.pid "caller@host" 1, .ref 7, "me@host"⟩
        (.pid "me@host" 0) (.atom "badarg")
      = .ok [.distCommand "caller@host"
          (.tuple [.pstr "monitor_p_exit", .pid "me@host" 0, .pid "caller@host" 1,
                   .ref 7, .atom "badarg"])] :=
  claim5_reply_exit_directive (fun _ => true) ⟨.pid "caller@host" 1, .ref 7, "me@host"⟩
    (.pid "me@host" 0) (.atom "badarg") "caller@host" 1 rfl rfl

/-- Claim C6: `reply` issues exactly one delivery request, looked up under
`ctx.node_name_`, with message `(ctx.ref_, result)`, sender `local_pid`
and receiver `ctx.sender_`; and the round trip — decoding an envelope with
correlation token `R` and then replying — produces a response whose first
element is that same `R`. -/
theorem claim6_reply_ok_delivery (registry : Registry) (ctx : GenBase)
    (local_pid result : Py) (S R body : Py) (node : String)
    (gm : GenIncomingMessage)
    (hreg : registry ctx.node_name_ = true)
    (hparse : parse_gen_message (.tuple [.atom "$gen_call", .tuple [S, R], body]) node
        = .ok gm)
    (hreg2 : registry gm.node_name_ = true) :
    ctx.reply registry local_pid result
      = .ok [.send local_pid ctx.sender_ (.tuple [ctx.ref_, result])] ∧
    gm.toGenBase.reply registry local_pid result
      = .ok [.send local_pid S (.tuple [R, result])] := by
  have h' : (PyResult.ok (⟨⟨S, R, node⟩, body⟩ : GenIncomingMessage))
      = PyResult.ok gm := hparse
  have hgm : gm = ⟨⟨S, R, node⟩, body⟩ := by
    injection h' with h''
    exact h''.symm
  subst hgm
  exact ⟨by simp [GenBase.reply, hreg], by simp [GenBase.reply, hreg2]⟩

/-- Claim C6 witness: the delivery and the round trip at a concrete
context and a concrete decoded envelope. -/
theorem claim6_witness :
    GenBase.reply (fun _ => true) ⟨.pid "caller@host" 1, .ref 7, "me@host"⟩
        (.pid "me@host" 0) (.atom "ok")
      = .ok [.send (.pid "me@host" 0) (.pid "caller@host" 1)
          (.tuple [.ref 7, .atom "ok"])] ∧
    GenBase.reply (fun _ => true)
        (GenIncomingMessage.toGenBase ⟨⟨.pid "caller@host" 1, .ref 7, "me@host"⟩, .pint 5⟩)
        (.pid "me@host" 0) (.atom "ok")
      = .ok [.send (.pid "me@host" 0) (.pid "caller@host" 1)
          (.tuple [.ref 7, .atom "ok"])] :=
  claim6_reply_ok_delivery (fun _ => true) ⟨.pid "caller@host" 1, .ref 7, "me@host"⟩
    (.pid "me@host" 0) (.atom "ok") (.pid "caller@host" 1) (.ref 7) (.pint 5) "me@host"
    ⟨⟨.pid "caller@host" 1, .ref 7, "me@host"⟩, .pint 5⟩ rfl rfl rfl

/-- Claim C7: `get_args` returns the stored args unchanged when they are a
plain Python list, and the wrapped element list when they are a compound
`Term.List`; either way the same ordered element sequence comes out. -/
theorem claim7_get_args_uniform (base : GenBase) (m f g : Py) (ts : List Py) :
    (GenIncomingCall.mk base m f (.list ts) g).get_args = .ok ts ∧
    (GenIncomingCall.mk base m f (.termList ts) g).get_args = .ok ts :=
  ⟨rfl, rfl⟩

/-- Claim C8: the call marker (first element of the call body) is never
inspected: two envelopes identical except for that element produce equal
`parse_gen_call` outcomes, for tuple-shaped and list-shaped bodies
alike. -/
theorem claim8_call_marker_ignored (tag sr c1 c2 : Py) (rest : List Py) :
    parse_gen_call (.tuple [tag, sr, .tuple (c1 :: rest)])
      = parse_gen_call (.tuple [tag, sr, .tuple (c2 :: rest)]) ∧
    parse_gen_call (.tuple [tag, sr, .list (c1 :: rest)])
      = parse_gen_call (.tuple [tag, sr, .list (c2 :: rest)]) :=
  ⟨parse_call_marker_irrel_tuple tag sr c1 c2 rest,
   parse_call_marker_irrel_list tag sr c1 c2 rest⟩

/-- Claim C9: an envelope whose first element is anything other than the
`$gen_call` atom is rejected with a string by both decoders, whatever the
rest of the envelope looks like; a non-tuple envelope with a first element
is likewise rejected with the non-tuple string. -/
theorem claim9_wrong_tag_rejected (e0 : Py) (rest : List Py) (node : String)
    (h : isGenCallTag e0 = false) :
    parse_gen_call (.tuple (e0 :: rest))
      = .errStr "Only \x7b$gen_call, _, _\x7d messages allowed" ∧
    parse_gen_message (.tuple (e0 :: rest)) node
      = .errStr "Only \x7b$gen_call, _, _\x7d messages allowed" ∧
    parse_gen_call (.list (e0 :: rest))
      = .errStr "Only \x7btuple\x7d messages allowed" ∧
    parse_gen_message (.list (e0 :: rest)) node
      = .errStr "Only \x7btuple\x7d messages allowed" := by
  refine ⟨?_, ?_, rfl, rfl⟩
  · unfold parse_gen_call
    simp [h]
  · unfold parse_gen_message
    simp [h]

/-- Claim C9 witness: both decoders at the concrete envelopes
`(other_tag,)` (tuple) and `[other_tag]` (list). -/
theorem claim9_witness :
    parse_gen_call (.tuple [.atom "other_tag"])
      = .errStr "Only \x7b$gen_call, _, _\x7d messages allowed" ∧
    parse_gen_message (.tuple [.atom "other_tag"]) "me@host"
      = .errStr "Only \x7b$gen_call, _, _\x7d messages allowed" ∧
    parse_gen_call (.list [.atom "other_tag"])
      = .errStr "Only \x7btuple\x7d messages allowed" ∧
    parse_gen_message (.list [.atom "other_tag"]) "me@host"
      = .errStr "Only \x7btuple\x7d messages allowed" :=
  claim9_wrong_tag_rejected (.atom "other_tag") [] "me@host" (by decide)

/-- Claim C10: `parse_gen_message` never inspects the body: every envelope
with valid outer shape and tag — whatever the body, a well-formed
5-element call body included — yields the descriptor with the body stored
verbatim; and since `parse_gen_call` never returns a descriptor at all
(second conjunct; its success path raises, see C1), every envelope it
accepts is trivially also accepted by `parse_gen_message`. -/
theorem claim10_generic_ignores_body (S R body : Py) (node : String) :
    parse_gen_message (.tuple [.atom "$gen_call", .tuple [S, R], body]) node
      = .ok ⟨⟨S, R, node⟩, body⟩ ∧
    ∀ msg : Py, (parse_gen_call msg).isOk = false :=
  ⟨rfl, parse_gen_call_never_ok⟩

end PyrlangGen
